import Mathlib

/-!
Shallow embedding of `frc2::ProfiledPIDCommand<Distance>` from
`src/wpilibNewCommands/src/main/native/include/frc2/command/ProfiledPIDCommand.h`.

Positions (the dimension `Distance`) are an abstract type `D`, velocities
(`Distance` per second) an abstract type `V`, control efforts (the `double`
returned by `Calculate` and consumed by the output sink) an abstract type `E`,
and the controller's hidden internal state an abstract type `σ`.  A nullary
sensor-reading callback such as `std::function<units::unit_t<Distance>>` is
modelled as a function `W → D` of the ambient world `W` at the instant of the
call, so different ticks may observe different values.

Collaborator invocations are recorded in an event trace: each lifecycle method
returns the updated command together with the list, in invocation order, of the
collaborator calls it performed.  An invocation `m_useOutput(e, s)` of the
output sink is the trace entry `Event.useOutput e s`.

Two aspects of the C++ are modelled explicitly rather than idealized:

* `Execute`'s body is a single call expression, so C++ leaves the evaluation
  order of its sibling arguments unspecified (they are indeterminately
  sequenced).  The semantics is therefore parameterized by an `EvalOrder`
  choosing whether `m_measurement()` runs before `m_goal()` and whether the
  `Calculate` chain runs before `GetSetpoint()`; a compiler evaluating
  arguments right to left (as GCC does) picks `GetSetpoint` first, which reads
  the previous tick's setpoint.

* The position-valued goal-source constructor stores the lambda
  `[&goalSource]() { return State{goalSource(), 0_mps}; }`, whose by-reference
  capture refers to the delegating constructor's own by-value parameter.  That
  parameter dies when construction completes, so every later goal read goes
  through a dangling reference; the embedding represents the referenced stack
  slot by a `RefCapture` and the undefined dangling read by `none`.
-/

/-- `frc::TrapezoidProfile<Distance>::State`: a profile sample, a pair of a
position and a velocity. -/
structure TrapezoidProfile.State (D V : Type) where
  position : D
  velocity : V
deriving DecidableEq, Repr

/-- Interface of `frc::ProfiledPIDController<Distance>` exactly as the command
uses it (the controller itself is outside this source tree and is a black box):
a hidden internal state `state` together with the three operations the command
invokes.  `Reset` maps the internal state to a fresh one; `Calculate` advances
the internal state one tick toward the goal and returns the new state and the
control effort; `GetSetpoint` reads the intermediate profile sample of the
given internal state, without modifying it. -/
structure ProfiledPIDController (D V E σ : Type) where
  state : σ
  Reset : σ → σ
  Calculate : σ → D → TrapezoidProfile.State D V → σ × E
  GetSetpoint : σ → TrapezoidProfile.State D V

/-- One observable collaborator invocation, carrying the data that flowed
through it: the value returned by `m_measurement()`, the value returned by
`m_goal()`, the arguments and result of `m_controller.Calculate`, the result of
`m_controller.GetSetpoint`, the arguments of the sink call `m_useOutput`, and
`m_controller.Reset()`. -/
inductive Event (D V E : Type) where
  | measurement : D → Event D V E
  | goal : TrapezoidProfile.State D V → Event D V E
  | calculate : D → TrapezoidProfile.State D V → E → Event D V E
  | getSetpoint : TrapezoidProfile.State D V → Event D V E
  | useOutput : E → TrapezoidProfile.State D V → Event D V E
  | reset : Event D V E
deriving DecidableEq, Repr

/-- Tests whether an event is an invocation of the measurement source. -/
def Event.isMeasurement {D V E : Type} : Event D V E → Bool
  | .measurement _ => true
  | _ => false

/-- Tests whether an event is an invocation of the goal source. -/
def Event.isGoal {D V E : Type} : Event D V E → Bool
  | .goal _ => true
  | _ => false

/-- Tests whether an event is a `Calculate` invocation on the controller. -/
def Event.isCalculate {D V E : Type} : Event D V E → Bool
  | .calculate _ _ _ => true
  | _ => false

/-- Tests whether an event is a `GetSetpoint` invocation on the controller. -/
def Event.isGetSetpoint {D V E : Type} : Event D V E → Bool
  | .getSetpoint _ => true
  | _ => false

/-- Tests whether an event is an invocation of the output sink. -/
def Event.isUseOutput {D V E : Type} : Event D V E → Bool
  | .useOutput _ _ => true
  | _ => false

/-- Tests whether an event is a `Reset` invocation on the controller. -/
def Event.isReset {D V E : Type} : Event D V E → Bool
  | .reset => true
  | _ => false

/-- The command.  It stores the controller by value and the two input
callbacks; the output sink `m_useOutput` has no observable behaviour besides
being invoked, so its invocations are represented by the `Event.useOutput`
entries of the traces below rather than by a stored field.  `m_requirements`
is the requirement set held by the `CommandBase` base object, with subsystems
as opaque identifiers. -/
structure ProfiledPIDCommand (D V E σ W : Type) where
  m_controller : ProfiledPIDController D V E σ
  m_measurement : W → D
  m_goal : W → TrapezoidProfile.State D V
  m_requirements : Finset Nat

/-- Modelled from the spec: `CommandBase::AddRequirements`, the base-class
subsystem registration, is not part of this source tree.  Per the spec it adds
the supplied subsystem identifiers to the command's requirement set; duplicates
are allowed in the input but each identifier is registered at most once, so the
result is the union with the set of distinct supplied identifiers. -/
def CommandBase.AddRequirements (current : Finset Nat) (requirements : List Nat) : Finset Nat :=
  current ∪ requirements.toFinset

/-- The canonical constructor: stores the controller, the measurement source
and the `State`-valued goal source (both moved into the members, so genuinely
the supplied function values), and calls `AddRequirements(requirements)` on the
empty base-class requirement set. -/
def ProfiledPIDCommand.ofStateGoalSource {D V E σ W : Type}
    (controller : ProfiledPIDController D V E σ) (measurementSource : W → D)
    (goalSource : W → TrapezoidProfile.State D V) (requirements : List Nat) :
    ProfiledPIDCommand D V E σ W :=
  { m_controller := controller
    m_measurement := measurementSource
    m_goal := goalSource
    m_requirements := CommandBase.AddRequirements ∅ requirements }

/-- The constructor taking a constant `State` goal: it delegates with the
value-capturing lambda `[goal] { return goal; }`, which overload resolution
passes to the canonical constructor; the constant is held by value, so the
stored closure is valid for the command's lifetime. -/
def ProfiledPIDCommand.ofConstantGoalState {D V E σ W : Type}
    (controller : ProfiledPIDController D V E σ) (measurementSource : W → D)
    (goal : TrapezoidProfile.State D V) (requirements : List Nat) :
    ProfiledPIDCommand D V E σ W :=
  ProfiledPIDCommand.ofStateGoalSource controller measurementSource (fun _ => goal) requirements

/-- A value captured by reference from a stack slot: `live` while the referent
exists, `dangling` after the referent's lifetime has ended.  Reading a dangling
capture is undefined behaviour; the embedding marks such a read `none`. -/
inductive RefCapture (α : Type) where
  | live : α → RefCapture α
  | dangling : RefCapture α

/-- Reads through the capture; `none` is the undefined dangling read. -/
def RefCapture.read {α : Type} : RefCapture α → Option α
  | .live a => some a
  | .dangling => none

/-- The lambda the position-goal constructor stores:
`[&goalSource]() { return State{goalSource(), 0_mps}; }`.  Invoked, it reads
the referenced `goalSource` slot and lifts the result with zero synthesized
velocity; once the slot is dead the read is the undefined `none`. -/
def positionGoalClosure {D V W : Type} [Zero V] (slot : RefCapture (W → D)) (w : W) :
    Option (TrapezoidProfile.State D V) :=
  slot.read.map fun goalSource => { position := goalSource w, velocity := 0 }

/-- The state, once construction has completed, of the stack slot that held the
delegating constructor's by-value `goalSource` parameter: the parameter does
not outlive the constructor call, so the slot the `[&goalSource]` capture
refers to is dangling for the whole life of the constructed command. -/
def paramSlotAfterConstruction {α : Type} (_param : α) : RefCapture α :=
  RefCapture.dangling

/-- A command built through the position-valued goal-source overload.  It
differs from `ProfiledPIDCommand` only in `m_goal`: what that overload stores
is the by-reference-capturing lambda, so a goal read may be the undefined
dangling read (`none`) rather than a `State`. -/
structure PositionGoalCommand (D V E σ W : Type) where
  m_controller : ProfiledPIDController D V E σ
  m_measurement : W → D
  m_goal : W → Option (TrapezoidProfile.State D V)
  m_requirements : Finset Nat

/-- The constructor taking a position-valued goal source.  It delegates to the
canonical field assignments but stores for `m_goal` the lambda
`[&goalSource]() { return State{goalSource(), 0_mps}; }`, whose by-reference
capture refers to the constructor's own by-value `goalSource` parameter.  The
parameter dies when construction completes, so the command, as its callers ever
see it, holds the closure over the dangling slot; every post-construction goal
read is undefined. -/
def ProfiledPIDCommand.ofPositionGoalSource {D V E σ W : Type} [Zero V]
    (controller : ProfiledPIDController D V E σ) (measurementSource : W → D)
    (goalSource : W → D) (requirements : List Nat) : PositionGoalCommand D V E σ W :=
  { m_controller := controller
    m_measurement := measurementSource
    m_goal := positionGoalClosure (paramSlotAfterConstruction goalSource)
    m_requirements := CommandBase.AddRequirements ∅ requirements }

/-- The constructor taking a constant position goal (`units::meter_t goal` in
the source): `[goal] { return goal; }` value-captures the constant, but it
returns a position, so overload resolution delegates through the
position-valued goal-source constructor, and the resulting command inherits
that overload's dangling goal closure. -/
def ProfiledPIDCommand.ofConstantGoalPosition {D V E σ W : Type} [Zero V]
    (controller : ProfiledPIDController D V E σ) (measurementSource : W → D)
    (goal : D) (requirements : List Nat) : PositionGoalCommand D V E σ W :=
  ProfiledPIDCommand.ofPositionGoalSource controller measurementSource (fun _ => goal)
    requirements

/-- `GetController()`: returns the contained controller. -/
def ProfiledPIDCommand.GetController {D V E σ W : Type}
    (c : ProfiledPIDCommand D V E σ W) : ProfiledPIDController D V E σ :=
  c.m_controller

/-- `Initialize()`: the body is `m_controller.Reset();`. -/
def ProfiledPIDCommand.Initialize {D V E σ W : Type} (c : ProfiledPIDCommand D V E σ W) :
    ProfiledPIDCommand D V E σ W × List (Event D V E) :=
  ({ c with
      m_controller :=
        { c.m_controller with state := c.m_controller.Reset c.m_controller.state } },
   [Event.reset])

/-- One of the argument-evaluation orders C++ permits for `Execute`'s body,
the single call expression
`m_useOutput(m_controller.Calculate(m_measurement(), m_goal()), m_controller.GetSetpoint())`.
Sibling arguments are indeterminately sequenced, so the language fixes neither
choice: `measFirst` says `m_measurement()` is evaluated before `m_goal()`, and
`calcFirst` says the outer call's first argument (the whole `Calculate` chain)
is evaluated before its second (`GetSetpoint()`).  Left-to-right evaluation is
`⟨true, true⟩`; GCC's right-to-left evaluation is `⟨false, false⟩`. -/
structure EvalOrder where
  measFirst : Bool
  calcFirst : Bool
deriving DecidableEq, Repr

/-- `Execute()` under a permitted evaluation order.  Data flow is fixed by the
expression: `Calculate` always receives the sources' values and the sink always
receives `Calculate`'s effort.  The setpoint the sink receives is order
dependent: if the `Calculate` chain is evaluated first, `GetSetpoint` reads the
advanced controller state; otherwise `GetSetpoint` runs first and reads the
state left by the previous tick. -/
def ProfiledPIDCommand.Execute {D V E σ W : Type} (c : ProfiledPIDCommand D V E σ W)
    (ord : EvalOrder) (w : W) : ProfiledPIDCommand D V E σ W × List (Event D V E) :=
  let m := c.m_measurement w
  let g := c.m_goal w
  let sourceEvents :=
    if ord.measFirst then [Event.measurement m, Event.goal g]
    else [Event.goal g, Event.measurement m]
  let r := c.m_controller.Calculate c.m_controller.state m g
  let c' := { c with m_controller := { c.m_controller with state := r.1 } }
  if ord.calcFirst then
    (c', sourceEvents ++
      [Event.calculate m g r.2, Event.getSetpoint (c.m_controller.GetSetpoint r.1),
       Event.useOutput r.2 (c.m_controller.GetSetpoint r.1)])
  else
    (c', Event.getSetpoint (c.m_controller.GetSetpoint c.m_controller.state) ::
      (sourceEvents ++
       [Event.calculate m g r.2,
        Event.useOutput r.2 (c.m_controller.GetSetpoint c.m_controller.state)]))

/-- The effort returned by a tick's single `Calculate` invocation, as a
function of the command and the world at that tick; it does not depend on the
evaluation order. -/
def ProfiledPIDCommand.tickEffort {D V E σ W : Type} (c : ProfiledPIDCommand D V E σ W)
    (w : W) : E :=
  (c.m_controller.Calculate c.m_controller.state (c.m_measurement w) (c.m_goal w)).2

/-- The setpoint `GetSetpoint` returns when read after the tick's `Calculate`,
i.e. at the controller state that `Calculate` produced. -/
def ProfiledPIDCommand.tickSetpoint {D V E σ W : Type} (c : ProfiledPIDCommand D V E σ W)
    (w : W) : TrapezoidProfile.State D V :=
  c.m_controller.GetSetpoint
    (c.m_controller.Calculate c.m_controller.state (c.m_measurement w) (c.m_goal w)).1

/-- `End(bool interrupted)`: the body is
`m_useOutput(0, State{Distance_t(0), Velocity_t(0)});`, for either value of the
flag. -/
def ProfiledPIDCommand.End {D V E σ W : Type} [Zero D] [Zero V] [Zero E]
    (c : ProfiledPIDCommand D V E σ W) (interrupted : Bool) :
    ProfiledPIDCommand D V E σ W × List (Event D V E) :=
  (c, [Event.useOutput 0 { position := 0, velocity := 0 }])

/-- One scheduler-issued lifecycle call: `Initialize`, `Execute` (with the
world at that tick), or `End` (with the interrupted flag). -/
inductive LifecycleOp (W : Type) where
  | init : LifecycleOp W
  | exec : W → LifecycleOp W
  | stop : Bool → LifecycleOp W
deriving DecidableEq, Repr

/-- Tests whether a lifecycle call is an `Initialize`. -/
def LifecycleOp.isInit {W : Type} : LifecycleOp W → Bool
  | .init => true
  | _ => false

/-- Performs one lifecycle call on the command; `Execute` ticks use the
evaluation order the compiler chose. -/
def ProfiledPIDCommand.step {D V E σ W : Type} [Zero D] [Zero V] [Zero E]
    (c : ProfiledPIDCommand D V E σ W) (ord : EvalOrder) :
    LifecycleOp W → ProfiledPIDCommand D V E σ W × List (Event D V E)
  | .init => c.Initialize
  | .exec w => c.Execute ord w
  | .stop b => c.End b

/-- Runs a sequence of lifecycle calls, threading the command and
concatenating the event traces. -/
def ProfiledPIDCommand.run {D V E σ W : Type} [Zero D] [Zero V] [Zero E]
    (c : ProfiledPIDCommand D V E σ W) (ord : EvalOrder) :
    List (LifecycleOp W) → ProfiledPIDCommand D V E σ W × List (Event D V E)
  | [] => (c, [])
  | op :: ops =>
    let r := c.step ord op
    let r2 := ProfiledPIDCommand.run r.1 ord ops
    (r2.1, r.2 ++ r2.2)

/-- Goal canonicalization as the spec words it: a position-valued goal source
is lifted to a `State`-valued source that wraps the same position function and
synthesizes zero velocity. -/
def specCanonicalizedGoal {D V W : Type} [Zero V] (goalSource : W → D) :
    W → TrapezoidProfile.State D V :=
  fun w => { position := goalSource w, velocity := 0 }

/-- A concrete controller instance over integers, used to exercise the
embedding on closed inputs: `Calculate` advances the internal counter and
returns the measurement plus the goal position as effort, and `GetSetpoint`
reads the counter into both components. -/
def sampleController : ProfiledPIDController Int Int Int Int :=
  { state := 0
    Reset := fun _ => 0
    Calculate := fun s m g => (s + 1, m + g.position)
    GetSetpoint := fun s => { position := s, velocity := s } }

/-- A concrete command over integers: the sample controller, the identity as
measurement source, and the constant `State` goal `(5, 2)`. -/
def sampleCommand : ProfiledPIDCommand Int Int Int Int Int :=
  ProfiledPIDCommand.ofConstantGoalState sampleController (fun w => w)
    { position := 5, velocity := 2 } []

/-- Claim C1: the code evaluated at the failing input.  Under the C++-permitted
right-to-left evaluation of the sibling arguments (`EvalOrder` with
`measFirst := false` and `calcFirst := false`, GCC's order), `GetSetpoint` runs
before `Calculate`, so the single sink invocation of the tick receives the
stale setpoint `(0, 0)` read before the profile advanced — while the value
`GetSetpoint` returns after that tick's `Calculate` is `(1, 1)`.  The effort
conjunct of the claim is unaffected (the sink receives the `Calculate` result
`8`); the setpoint-after-`Calculate` conjunct fails. -/
theorem ProfiledPIDCommand.execute_stale_setpoint_bug :
    (sampleCommand.Execute { measFirst := false, calcFirst := false } 3).2.filter
        Event.isUseOutput =
      [Event.useOutput (8 : Int)
        ({ position := 0, velocity := 0 } : TrapezoidProfile.State Int Int)] ∧
    sampleCommand.tickSetpoint 3 = { position := 1, velocity := 1 } ∧
    ({ position := (0 : Int), velocity := (0 : Int) } : TrapezoidProfile.State Int Int) ≠
      { position := 1, velocity := 1 } :=
  ⟨by decide, by decide, by decide⟩

/-- Claim C2: the code evaluated at the failing input.  Under right-to-left
argument evaluation the observable order of the five steps of one `Execute` is
`GetSetpoint`, goal source, measurement source, `Calculate`, sink:
`GetSetpoint` precedes `Calculate` and the goal source precedes the measurement
source, refuting the claimed fixed order measurement, goal, `Calculate`,
`GetSetpoint`, sink. -/
theorem ProfiledPIDCommand.execute_order_unspecified_bug :
    (sampleCommand.Execute { measFirst := false, calcFirst := false } 3).2.findIdx?
        Event.isGetSetpoint = some 0 ∧
    (sampleCommand.Execute { measFirst := false, calcFirst := false } 3).2.findIdx?
        Event.isGoal = some 1 ∧
    (sampleCommand.Execute { measFirst := false, calcFirst := false } 3).2.findIdx?
        Event.isMeasurement = some 2 ∧
    (sampleCommand.Execute { measFirst := false, calcFirst := false } 3).2.findIdx?
        Event.isCalculate = some 3 ∧
    (sampleCommand.Execute { measFirst := false, calcFirst := false } 3).2.findIdx?
        Event.isUseOutput = some 4 :=
  ⟨by decide, by decide, by decide, by decide, by decide⟩

/-- Claim C3: within one `Execute` call, under every permitted evaluation
order, the measurement source and the goal source are each invoked exactly
once, and the values they return are exactly the measurement and goal
arguments passed to `Calculate` on that tick. -/
theorem ProfiledPIDCommand.execute_input_freshness {D V E σ W : Type}
    (c : ProfiledPIDCommand D V E σ W) (ord : EvalOrder) (w : W) :
    (c.Execute ord w).2.filter Event.isMeasurement =
      [Event.measurement (c.m_measurement w)] ∧
    (c.Execute ord w).2.filter Event.isGoal = [Event.goal (c.m_goal w)] ∧
    (c.Execute ord w).2.filter Event.isCalculate =
      [Event.calculate (c.m_measurement w) (c.m_goal w) (c.tickEffort w)] := by
  obtain ⟨mf, cf⟩ := ord
  cases mf <;> cases cf <;> exact ⟨rfl, rfl, rfl⟩

/-- Claim C4: every `End` call, with either value of the interrupted flag,
invokes the output sink exactly once, with effort `0` and a `State` whose
position and velocity are both zero, and performs no `Calculate`. -/
theorem ProfiledPIDCommand.end_clean_shutdown {D V E σ W : Type} [Zero D] [Zero V] [Zero E]
    (c : ProfiledPIDCommand D V E σ W) (interrupted : Bool) :
    (c.End interrupted).2 =
      [Event.useOutput (0 : E) ({ position := 0, velocity := 0 } : TrapezoidProfile.State D V)] ∧
    (c.End interrupted).2.countP Event.isUseOutput = 1 ∧
    (c.End interrupted).2.countP Event.isCalculate = 0 :=
  ⟨rfl, rfl, rfl⟩

/-- Claim C5: every `Initialize` call applies exactly one `Reset` to the
controller and performs no other side effect: its trace is the single `Reset`
event (so no sink, measurement-source, goal-source, or `Calculate` invocation
occurs), and the resulting command differs from the original only in the
controller state, which is the `Reset` of the previous state. -/
theorem ProfiledPIDCommand.reset_on_entry {D V E σ W : Type}
    (c : ProfiledPIDCommand D V E σ W) :
    c.Initialize.2 = [Event.reset] ∧
    c.Initialize.1 =
      { c with
        m_controller :=
          { c.m_controller with state := c.m_controller.Reset c.m_controller.state } } :=
  ⟨rfl, rfl⟩

/-- Claim C6: the code evaluated at the failing input.  The goal closure a
position-overload-built command stores reads the `[&goalSource]`-captured
parameter slot, which is destroyed when construction completes; after
construction the read is the undefined `none`, so no tick can receive from it
the canonical lift `State{goalSource(), 0}` — here `(6, 0)` for
`goalSource w = 2 * w` at `w = 3` — and the overload does not behave like the
canonical overload wrapping the same position function. -/
theorem ProfiledPIDCommand.position_goal_dangling_bug :
    (ProfiledPIDCommand.ofPositionGoalSource sampleController (fun w => w)
        (fun w => 2 * w) []).m_goal 3 = none ∧
    specCanonicalizedGoal (V := Int) (fun w : Int => 2 * w) 3 =
      { position := 6, velocity := 0 } ∧
    (none : Option (TrapezoidProfile.State Int Int)) ≠
      some { position := 6, velocity := 0 } :=
  ⟨rfl, by decide, by decide⟩

/-- Claim C7: the code evaluated at the failing input.  The bare-position
constant-goal overload delegates through the position-valued goal-source
overload, so the constructed command holds the same dangling goal closure:
after construction the goal read is the undefined `none`, never the constant
`State{5, 0}` the claim requires for every tick. -/
theorem ProfiledPIDCommand.constant_position_goal_dangling_bug :
    (ProfiledPIDCommand.ofConstantGoalPosition sampleController (fun w : Int => w)
        (5 : Int) []).m_goal 3 = none ∧
    (none : Option (TrapezoidProfile.State Int Int)) ≠
      some { position := 5, velocity := 0 } :=
  ⟨rfl, by decide⟩

/-- Claim C8: for every construction form and every input requirements list
(possibly empty, possibly with duplicates), the requirement set the command
reports equals the set of distinct subsystem identifiers supplied at
construction, and each identifier appears in it at most once. -/
theorem ProfiledPIDCommand.subsystem_registration {D V E σ W : Type} [Zero V]
    (controller : ProfiledPIDController D V E σ) (measurementSource : W → D)
    (stateGoalSource : W → TrapezoidProfile.State D V) (positionGoalSource : W → D)
    (goal : TrapezoidProfile.State D V) (p : D) (requirements : List Nat) :
    (ProfiledPIDCommand.ofStateGoalSource (E := E) controller measurementSource
      stateGoalSource requirements).m_requirements = requirements.toFinset ∧
    (ProfiledPIDCommand.ofPositionGoalSource (E := E) controller measurementSource
      positionGoalSource requirements).m_requirements = requirements.toFinset ∧
    (ProfiledPIDCommand.ofConstantGoalState (E := E) (W := W) controller measurementSource
      goal requirements).m_requirements = requirements.toFinset ∧
    (ProfiledPIDCommand.ofConstantGoalPosition (E := E) (W := W) controller measurementSource
      p requirements).m_requirements = requirements.toFinset ∧
    (requirements.toFinset : Finset Nat).val.Nodup := by
  refine ⟨?_, ?_, ?_, ?_, requirements.toFinset.nodup⟩ <;>
    simp [ProfiledPIDCommand.ofStateGoalSource, ProfiledPIDCommand.ofPositionGoalSource,
      ProfiledPIDCommand.ofConstantGoalState, ProfiledPIDCommand.ofConstantGoalPosition,
      CommandBase.AddRequirements]

/-- Claim C9: no construction form mutates controller state or invokes a
collaborator: each of the four overloads stores the supplied controller
unchanged (internal state included), and the canonical form stores the
measurement and goal sources as the supplied, unevaluated functions.  In the
embedding every constructor is a pure record formation producing no event, so
no `Reset`, `Calculate`, `GetSetpoint`, source, or sink invocation occurs
(for the position-goal overloads the stored closure is ill-formed after
construction, but constructing them still touches nothing). -/
theorem ProfiledPIDCommand.construction_no_side_effects {D V E σ W : Type} [Zero V]
    (controller : ProfiledPIDController D V E σ) (measurementSource : W → D)
    (stateGoalSource : W → TrapezoidProfile.State D V) (positionGoalSource : W → D)
    (goal : TrapezoidProfile.State D V) (p : D) (requirements : List Nat) :
    (ProfiledPIDCommand.ofStateGoalSource controller measurementSource stateGoalSource
      requirements).m_controller = controller ∧
    (ProfiledPIDCommand.ofPositionGoalSource controller measurementSource positionGoalSource
      requirements).m_controller = controller ∧
    (ProfiledPIDCommand.ofConstantGoalState (W := W) controller measurementSource goal
      requirements).m_controller = controller ∧
    (ProfiledPIDCommand.ofConstantGoalPosition (W := W) controller measurementSource p
      requirements).m_controller = controller ∧
    (ProfiledPIDCommand.ofStateGoalSource controller measurementSource stateGoalSource
      requirements).m_measurement = measurementSource ∧
    (ProfiledPIDCommand.ofStateGoalSource controller measurementSource stateGoalSource
      requirements).m_goal = stateGoalSource :=
  ⟨rfl, rfl, rfl, rfl, rfl, rfl⟩

/-- Claim C10: across every sequence of lifecycle calls, under every permitted
evaluation order, the number of `Reset` invocations the controller receives
equals the number of `Initialize` calls in the sequence: `Execute` and `End`
never invoke `Reset`. -/
theorem ProfiledPIDCommand.reset_exactly_on_init {D V E σ W : Type} [Zero D] [Zero V] [Zero E]
    (c : ProfiledPIDCommand D V E σ W) (ord : EvalOrder) (ops : List (LifecycleOp W)) :
    (c.run ord ops).2.countP Event.isReset = ops.countP LifecycleOp.isInit := by
  obtain ⟨mf, cf⟩ := ord
  induction ops generalizing c with
  | nil => rfl
  | cons op ops ih =>
    cases op <;> cases mf <;> cases cf <;>
      simp [ProfiledPIDCommand.run, ProfiledPIDCommand.step, ProfiledPIDCommand.Initialize,
        ProfiledPIDCommand.Execute, ProfiledPIDCommand.End, List.countP_append,
        List.countP_cons, ih, Event.isReset, LifecycleOp.isInit]
